import Mathlib

/-!
Shallow embedding of the real-time messaging core of the grveyard backend:
the connection registry (pkg/chat/manager.go), the message store gateway
(PostgresMessageStore), and the delivery pipeline (Handler.processMessage,
Handler.processReadReceipt, Handler.validateMessage).

Modelling conventions:
- The Go registry map user_id -> *Client is modelled as an association list
  from user id to a token (an index into an append-only heap of Client
  records).  The heap keeps superseded connection objects visible so the
  lifecycle of a closed connection can be stated.
- Channels: the buffered Send channel (capacity 32) is a list of payloads;
  the Done channel is a Boolean flag (true once closed).
- Goroutine interleavings are modelled by calling the step functions in the
  order the scheduler would run them; each step function is the sequential
  body of the corresponding Go function.
- Go len on a string counts UTF-8 bytes; content lengths are modelled with
  String.length, identifying characters with bytes (faithful for ASCII, and
  the source error text itself says characters).
- The SQL users join is abstracted: message rows store the two user UUIDs
  directly, and the store keeps the list of existing user UUIDs so that the
  insert-select and the join conditions can be expressed.  Query failures
  (pool down, timeout) are modelled by the dbOk flag.
- fmt.Sscanf with a %d verb on a message id string is modelled by
  String.toInt? (both reject non-numeric ids; the Go version would also
  accept digits followed by junk, which no claim exercises).
-/

namespace Grveyard

/-- Decidable equality for Except results, used to evaluate gateway calls in
concrete theorems. -/
instance {ε α : Type} [DecidableEq ε] [DecidableEq α] : DecidableEq (Except ε α) := fun x y =>
  match x, y with
  | .ok a, .ok b =>
    if h : a = b then isTrue (by rw [h]) else isFalse (by intro hh; cases hh; exact h rfl)
  | .error a, .error b =>
    if h : a = b then isTrue (by rw [h]) else isFalse (by intro hh; cases hh; exact h rfl)
  | .ok _, .error _ => isFalse (by intro hh; cases hh)
  | .error _, .ok _ => isFalse (by intro hh; cases hh)

/-- Message (models.go): a chat message as decoded from the wire. -/
structure Message where
  SenderID : String
  ReceiverID : String
  Content : String
  /-- Epoch seconds; the value 0 models the zero time.Time checked by IsZero. -/
  Timestamp : Int
  ID : String
  MessageType : Int
  IsRead : Bool
deriving DecidableEq

/-- Acknowledgement (models.go): sent to the sender when a message is processed. -/
structure Acknowledgement where
  MessageID : String
  Status : String
  Error : String
deriving DecidableEq

/-- ErrorResponse (models.go): sent to a client on errors. -/
structure ErrorResponse where
  Error : String
  Code : String
deriving DecidableEq

/-- ReadReceiptNotification (models.go): sent to an original sender when the
receiver marks messages as read. -/
structure ReadReceiptNotification where
  EventType : String
  MessageIDs : List String
  ReadBy : String
deriving DecidableEq

/-- Payload: the values enqueued on a Client Send channel (chan interface in Go). -/
inductive Payload where
  | message (m : Message)
  | ack (a : Acknowledgement)
  | errResp (e : ErrorResponse)
  | readReceipt (n : ReadReceiptNotification)
deriving DecidableEq

/-- Client (manager.go): a connected user.  The send field holds the contents
of the buffered Send channel, doneClosed is true once the Done channel has
been closed, connClosed is true once the websocket transport was closed. -/
structure Client where
  UserID : String
  send : List Payload
  doneClosed : Bool
  connClosed : Bool
deriving DecidableEq

/-- Capacity of the buffered Send channel created in AddClient. -/
def sendQueueCap : Nat := 32

/-- ConnectionManager (manager.go): clients is the user_id to connection map;
tokens index the conns heap, which records every Client object ever
allocated (so superseded connections stay observable). -/
structure ConnectionManager where
  clients : List (String × Nat)
  conns : List Client
deriving DecidableEq

namespace ConnectionManager

/-- Dereference a token in the heap. -/
def conn? (cm : ConnectionManager) (t : Nat) : Option Client :=
  cm.conns.get? t

/-- Overwrite the heap cell of a token. -/
def setConn (cm : ConnectionManager) (t : Nat) (c : Client) : ConnectionManager :=
  { cm with conns := cm.conns.set t c }

/-- Delete a key from the registry map. -/
def mapErase (m : List (String × Nat)) (k : String) : List (String × Nat) :=
  m.filter (fun kv => kv.1 ≠ k)

/-- Bind a key in the registry map, replacing any existing binding. -/
def mapSet (m : List (String × Nat)) (k : String) (v : Nat) : List (String × Nat) :=
  mapErase m k ++ [(k, v)]

/-- AddClient (manager.go): if an existing connection for userID is present,
close its Done channel and its transport, then install a fresh Client with
an empty buffered Send channel; returns the token of the new Client. -/
def AddClient (cm : ConnectionManager) (userID : String) : ConnectionManager × Nat :=
  let cm :=
    match cm.clients.lookup userID with
    | some t =>
      match cm.conn? t with
      | some c => cm.setConn t { c with doneClosed := true, connClosed := true }
      | none => cm
    | none => cm
  let t := cm.conns.length
  ({ cm with
      conns := cm.conns ++ [{ UserID := userID, send := [], doneClosed := false, connClosed := false }],
      clients := mapSet cm.clients userID t }, t)

/-- RemoveClient (manager.go): if userID is registered, close the Done channel
of the registered connection and delete the map entry; no-op otherwise. -/
def RemoveClient (cm : ConnectionManager) (userID : String) : ConnectionManager :=
  match cm.clients.lookup userID with
  | some t =>
    let cm :=
      match cm.conn? t with
      | some c => cm.setConn t { c with doneClosed := true }
      | none => cm
    { cm with clients := mapErase cm.clients userID }
  | none => cm

/-- IsOnline (manager.go): membership in the registry map. -/
def IsOnline (cm : ConnectionManager) (userID : String) : Bool :=
  (cm.clients.lookup userID).isSome

/-- GetOnlineUsers (manager.go): snapshot of the registered user ids. -/
def GetOnlineUsers (cm : ConnectionManager) : List String :=
  cm.clients.map (fun kv => kv.1)

/-- BroadcastToUser (manager.go): look the user up under the read lock, then
run the select over the Send channel, the Done channel and the default
branch.  A non-full channel accepts the payload; otherwise a closed Done
channel reports a disconnect, and a full channel reports queue saturation. -/
def BroadcastToUser (cm : ConnectionManager) (userID : String) (p : Payload) :
    Except String ConnectionManager :=
  match cm.clients.lookup userID with
  | none => .error ("user " ++ userID ++ " is not online")
  | some t =>
    match cm.conn? t with
    | none => .error ("user " ++ userID ++ " is not online")
    | some c =>
      if c.send.length < sendQueueCap then
        .ok (cm.setConn t { c with send := c.send ++ [p] })
      else if c.doneClosed then
        .error ("user " ++ userID ++ " disconnected")
      else
        .error ("user " ++ userID ++ " message queue full")

/-- Room test used by the delivery theorems: the registered connection of
userID exists and its Send channel is not full. -/
def sendRoom (cm : ConnectionManager) (userID : String) : Bool :=
  match cm.clients.lookup userID with
  | none => false
  | some t =>
    match cm.conn? t with
    | none => false
    | some c => c.send.length < sendQueueCap

/-- Well-formedness of the registry used by the fan-out theorems: distinct
registered users hold distinct heap tokens (true of every state the Go
code reaches, since each connection object is allocated separately). -/
def tokensInjective (cm : ConnectionManager) : Prop :=
  ∀ a b, a ∈ cm.clients → b ∈ cm.clients → a.2 = b.2 → a.1 = b.1

end ConnectionManager

/-- The deferred cleanup at the top of Handler.readLoop, as executed by the
read loop of a given connection object when it exits: it deregisters by the
captured client UserID (not by connection identity).  The transport close
and the last-active update of the defer are not relevant to the registry
state and are not modelled. -/
def readLoopTeardown (cm : ConnectionManager) (c : Client) : ConnectionManager :=
  cm.RemoveClient c.UserID

/-- MessageHistoryItem (models.go): one row of the conversation history. -/
structure MessageHistoryItem where
  SenderID : String
  ReceiverID : String
  Content : String
  MessageType : Int
  IsRead : Bool
  MessagedAt : Int
deriving DecidableEq

/-- A row of the messages table.  The sender and receiver columns hold the
user UUIDs directly (the numeric users join of the SQL is abstracted). -/
structure DBMessage where
  id : Int
  sender : String
  receiver : String
  content : String
  messageType : Int
  isRead : Bool
  messagedAt : Int
deriving DecidableEq

/-- PostgresMessageStore (repository.go): users lists the UUIDs present in
the users table, db is the messages table, nextId the next serial id, and
dbOk models the health of the pool (false makes every query error). -/
structure StoreModel where
  users : List String
  db : List DBMessage
  nextId : Int
  dbOk : Bool
deriving DecidableEq

namespace StoreModel

/-- SaveMessage (repository.go): insert-select through the users table; the
row is inserted only when sender and receiver UUIDs resolve, and the new
serial id is returned; otherwise the RETURNING scan fails. -/
def SaveMessage (r : StoreModel) (senderUUID receiverUUID content : String)
    (messageType : Int) (messagedAt : Int) : Except String (StoreModel × Int) :=
  if r.dbOk = false then .error "insert message: db error"
  else if senderUUID ∈ r.users ∧ receiverUUID ∈ r.users then
    .ok ({ r with
            db := r.db ++ [{ id := r.nextId, sender := senderUUID, receiver := receiverUUID,
                             content := content, messageType := messageType,
                             isRead := false, messagedAt := messagedAt }],
            nextId := r.nextId + 1 }, r.nextId)
  else .error "insert message: no rows in result set"

/-- Digit accumulator of the message id parser. -/
def parseDigits : List Char → Option Nat → Option Nat
  | [], acc => acc
  | c :: cs, acc =>
    if c.isDigit then parseDigits cs (some ((acc.getD 0) * 10 + (c.toNat - 48)))
    else none

/-- Model of fmt.Sscanf with a %d verb on a message id string: an optional
sign followed by decimal digits parses to the integer, anything else is
rejected (the Go scan would also accept digits followed by junk, which no
claim exercises). -/
def parseMessageID (s : String) : Option Int :=
  match s.data with
  | '-' :: rest => (parseDigits rest none).map (fun n => -(n : Int))
  | l => (parseDigits l none).map (fun n => (n : Int))

/-- Row predicate of the mark-as-read UPDATE: receiver matches the given
UUID, the row id is among the parsed ids, and the row is still unread. -/
def markHit (receiverUUID : String) (ids : List Int) (m : DBMessage) : Prop :=
  m.receiver = receiverUUID ∧ m.id ∈ ids ∧ m.isRead = false

instance (receiverUUID : String) (ids : List Int) (m : DBMessage) :
    Decidable (markHit receiverUUID ids m) := by
  unfold markHit; infer_instance

/-- First-seen deduplication, mirroring the seen map loop of the Go code. -/
def dedupFirst (seen : List String) : List String → List String
  | [] => []
  | x :: xs => if x ∈ seen then dedupFirst seen xs else x :: dedupFirst (x :: seen) xs

/-- MarkMessagesAsRead (repository.go): early return on an empty id list,
parse the ids, then run the UPDATE joined against the users table and
return the first-seen-deduplicated sender UUIDs of the updated rows. -/
def MarkMessagesAsRead (r : StoreModel) (receiverUUID : String)
    (messageIDs : List String) : Except String (StoreModel × List String) :=
  if messageIDs.isEmpty then .ok (r, [])
  else
    let ids := messageIDs.filterMap parseMessageID
    if ids.isEmpty then .ok (r, [])
    else if r.dbOk = false then .error "mark messages as read: db error"
    else if receiverUUID ∈ r.users then
      let marked := r.db.filter (fun m => decide (markHit receiverUUID ids m))
      let db2 := r.db.map
        (fun m => if markHit receiverUUID ids m then { m with isRead := true } else m)
      .ok ({ r with db := db2 }, dedupFirst [] (marked.map (fun m => m.sender)))
    else .ok (r, [])

/-- Insertion step of the ORDER BY messaged_at ASC sort. -/
def insertByTs (m : DBMessage) : List DBMessage → List DBMessage
  | [] => [m]
  | x :: xs => if m.messagedAt < x.messagedAt then m :: x :: xs else x :: insertByTs m xs

/-- Stable sort by messaged_at ascending, modelling ORDER BY messaged_at ASC. -/
def sortByTs : List DBMessage → List DBMessage
  | [] => []
  | x :: xs => insertByTs x (sortByTs xs)

/-- GetConversationHistory (repository.go): normalize the limit (default 50,
cap 100), select the rows of the unordered pair with messaged_at strictly
below the cursor, order ascending, take limit rows, and project. -/
def GetConversationHistory (r : StoreModel) (userUUID peerUUID : String)
    (limit : Int) (beforeEpoch : Int) : Except String (List MessageHistoryItem) :=
  if r.dbOk = false then .error "query conversation history: db error"
  else
    let lim : Int := if limit ≤ 0 then 50 else if limit > 100 then 100 else limit
    let rows := r.db.filter (fun m =>
      decide (((m.sender = userUUID ∧ m.receiver = peerUUID) ∨
               (m.sender = peerUUID ∧ m.receiver = userUUID)) ∧
              m.messagedAt < beforeEpoch))
    .ok (((sortByTs rows).take lim.toNat).map (fun m =>
      { SenderID := m.sender, ReceiverID := m.receiver, Content := m.content,
        MessageType := m.messageType, IsRead := m.isRead, MessagedAt := m.messagedAt }))

end StoreModel

/-- Handler (handler.go): the connection manager is threaded separately; repo
is the optional message store (nil means persistence is skipped). -/
structure Handler where
  repo : Option StoreModel
deriving DecidableEq

/-- Observable action of one handler step, in program order: a SaveMessage
call on the gateway, a successful enqueue onto the Send channel of a
registered user, or a payload offered on the Send channel of the calling
client (acknowledgement or error response). -/
inductive Action where
  | save (sender receiver content : String) (messageType : Int) (epoch : Int)
  | toUser (userID : String) (p : Payload)
  | toSender (p : Payload)
deriving DecidableEq

namespace Action

/-- Tests whether an action is a gateway save call. -/
def isSave : Action → Bool
  | .save _ _ _ _ _ => true
  | _ => false

/-- Tests whether an action is an enqueue of some payload to the given user. -/
def isToUser (x : String) : Action → Bool
  | .toUser u _ => u = x
  | _ => false

/-- Tests whether an action offers an acknowledgement to the calling client. -/
def isAckToSender : Action → Bool
  | .toSender (.ack _) => true
  | _ => false

/-- Tests whether an action offers an error response to the calling client. -/
def isErrToSender : Action → Bool
  | .toSender (.errResp _) => true
  | _ => false

end Action

/-- Statuses of the acknowledgements offered to the calling client, in order. -/
def ackStatuses (tr : List Action) : List String :=
  tr.filterMap fun a =>
    match a with
    | .toSender (.ack k) => some k.Status
    | _ => none

/-- validateMessage (handler.go): content non-empty and at most 10000 long,
receiver present, receiver distinct from the authenticated sender; returns
the error text of the first violated rule. -/
def validateMessage (msg : Message) (senderID : String) : Option String :=
  if msg.Content = "" then some "message content cannot be empty"
  else if msg.Content.length > 10000 then some "message content too long (max 10000 characters)"
  else if msg.ReceiverID = "" then some "receiver_id is required"
  else if msg.ReceiverID = senderID then some "cannot send messages to yourself"
  else none

/-- Delivery and acknowledgement tail of Handler.processMessage: forward to
the receiver when online (an enqueue failure produces an error response and
stops), then offer the acknowledgement whose status rechecks the receiver
presence. -/
def deliverPhase (cm : ConnectionManager) (msg : Message) :
    List Action × ConnectionManager :=
  if cm.IsOnline msg.ReceiverID then
    match cm.BroadcastToUser msg.ReceiverID (.message msg) with
    | .error e =>
      ([.toSender (.errResp { Error := "failed to deliver message: " ++ e, Code := "" })], cm)
    | .ok cm2 =>
      let st := if cm2.IsOnline msg.ReceiverID then "sent" else "queued"
      ([.toUser msg.ReceiverID (.message msg),
        .toSender (.ack { MessageID := msg.ID, Status := st, Error := "" })], cm2)
  else
    let st := if cm.IsOnline msg.ReceiverID then "sent" else "queued"
    ([.toSender (.ack { MessageID := msg.ID, Status := st, Error := "" })], cm)

/-- Normalization steps of Handler.processMessage, rendered field-wise (the
four sequential updates of the source touch disjoint fields): assign the
generated id when absent, assign the current timestamp when the zero time,
force the sender identity to the authenticated user, and write the default
type 0 when the type is already 0 (a no-op kept from the source). -/
def normalizeMessage (msg : Message) (clientID genID : String) (now : Int) : Message :=
  { SenderID := clientID,
    ReceiverID := msg.ReceiverID,
    Content := msg.Content,
    Timestamp := if msg.Timestamp = 0 then now else msg.Timestamp,
    ID := if msg.ID = "" then genID else msg.ID,
    MessageType := if msg.MessageType = 0 then 0 else msg.MessageType,
    IsRead := msg.IsRead }

/-- processMessage (handler.go): validate, normalize (server id, timestamp,
forced sender identity, default type), persist synchronously when a store
is configured (an insert failure yields an error acknowledgement and
stops), then deliver and acknowledge.  genID models uuid.New and now models
time.Now for the normalization steps. -/
def processMessage (h : Handler) (cm : ConnectionManager) (clientID : String)
    (msg : Message) (genID : String) (now : Int) :
    List Action × ConnectionManager × Handler :=
  match validateMessage msg clientID with
  | some e => ([.toSender (.errResp { Error := e, Code := "" })], cm, h)
  | none =>
    let msg := normalizeMessage msg clientID genID now
    match h.repo with
    | none =>
      let (acts, cm2) := deliverPhase cm msg
      (acts, cm2, h)
    | some store =>
      let callAct := Action.save msg.SenderID msg.ReceiverID msg.Content msg.MessageType msg.Timestamp
      match store.SaveMessage msg.SenderID msg.ReceiverID msg.Content msg.MessageType msg.Timestamp with
      | .error _ =>
        ([callAct,
          .toSender (.ack { MessageID := msg.ID, Status := "error", Error := "failed to persist message" })],
         cm, h)
      | .ok (store2, _) =>
        let (acts, cm2) := deliverPhase cm msg
        (callAct :: acts, cm2, { repo := some store2 })

/-- Notification loop at the end of Handler.processReadReceipt: broadcast the
notification to every returned sender that is currently online; broadcast
failures are only logged. -/
def notifySenders (cm : ConnectionManager) (senders : List String) (notif : Payload) :
    List Action × ConnectionManager :=
  match senders with
  | [] => ([], cm)
  | s :: rest =>
    if cm.IsOnline s then
      match cm.BroadcastToUser s notif with
      | .ok cm2 =>
        let (acts, cm3) := notifySenders cm2 rest notif
        (.toUser s notif :: acts, cm3)
      | .error _ => notifySenders cm rest notif
    else notifySenders cm rest notif

/-- processReadReceipt (handler.go): skip everything without a store; require
a message_ids list (missing or empty yields an error response); keep the
string elements (none left yields a silent return); mark as read scoped to
the authenticated identity (a gateway error yields an error response); then
notify the online senders with the full requested id list.  The field
argument models the message_ids entry of the raw JSON object: none when the
key is missing or not a list, and each element is some string or a
non-string value. -/
def processReadReceipt (h : Handler) (cm : ConnectionManager) (clientID : String)
    (field : Option (List (Option String))) :
    List Action × ConnectionManager × Handler :=
  match h.repo with
  | none => ([], cm, h)
  | some store =>
    match field with
    | none =>
      ([.toSender (.errResp { Error := "message_ids required for read receipt", Code := "" })], cm, h)
    | some raws =>
      if raws.isEmpty then
        ([.toSender (.errResp { Error := "message_ids required for read receipt", Code := "" })], cm, h)
      else
        let messageIDs := raws.filterMap id
        if messageIDs.isEmpty then ([], cm, h)
        else
          match store.MarkMessagesAsRead clientID messageIDs with
          | .error _ =>
            ([.toSender (.errResp { Error := "failed to mark messages as read", Code := "" })], cm, h)
          | .ok (store2, senderUUIDs) =>
            let notif := Payload.readReceipt
              { EventType := "message_read", MessageIDs := messageIDs, ReadBy := clientID }
            let (acts, cm2) := notifySenders cm senderUUIDs notif
            (acts, cm2, { repo := some store2 })

/-! Theorems -/

/-- Validation succeeds when the four documented conditions hold. -/
theorem validateMessage_eq_none (msg : Message) (senderID : String)
    (hc : msg.Content ≠ "") (hlen : msg.Content.length ≤ 10000)
    (hr : msg.ReceiverID ≠ "") (hne : msg.ReceiverID ≠ senderID) :
    validateMessage msg senderID = none := by
  unfold validateMessage
  rw [if_neg hc, if_neg (by omega), if_neg hr, if_neg hne]

/-- The conditional default write of the message type is the identity. -/
theorem messageTypeNorm (mt : Int) : (if mt = 0 then 0 else mt) = mt := by
  split
  · omega
  · rfl

/-- The delivery phase performs no gateway save call. -/
theorem deliverPhase_no_save (cm : ConnectionManager) (msg : Message) :
    ((deliverPhase cm msg).1).countP Action.isSave = 0 := by
  unfold deliverPhase
  split
  · cases h : cm.BroadcastToUser msg.ReceiverID (.message msg) <;>
      simp [h, Action.isSave]
  · simp [Action.isSave]

/-- C1: for every identity the registry holds at most one connection, and
AddClient signals and closes a prior connection before installing the new
one; but the final part of the claim fails on the code: when the superseded
connection runs the deferred cleanup of its read loop, RemoveClient is
keyed by user id and therefore deletes and done-closes the NEW connection.
This theorem evaluates the failing run: identity u connects twice; after
the supersession the old connection (token 0) is signalled and closed and
the new one (token 1) is registered and open, but after the superseded
teardown the registry has no connection for u at all and the done signal of
the new connection is closed — zero survivors instead of exactly one. -/
theorem c1_supersession_teardown_removes_new_connection :
    let cm2 : ConnectionManager := (ConnectionManager.AddClient
      (ConnectionManager.AddClient { clients := [], conns := [] } "u").1 "u").1
    let cm3 : ConnectionManager := readLoopTeardown cm2
      { UserID := "u", send := [], doneClosed := true, connClosed := true }
    ((cm2.conn? 0).map (fun c => (c.doneClosed, c.connClosed)) = some (true, true)
        ∧ cm2.clients.lookup "u" = some 1
        ∧ (cm2.conn? 1).map (fun c => c.doneClosed) = some false)
      ∧ cm3.clients.lookup "u" = none
      ∧ (cm3.conn? 1).map (fun c => c.doneClosed) = some true := by
  decide

/-- C5: the positive parts hold on the evaluated run (only rows of the pair
with timestamp strictly below the cursor, oldest first, at most limit
rows), but the pagination part of the claim fails on the code: the query
orders ascending and takes the first limit rows, so the first page is the
OLDEST slice; following the prescribed cursor (the earliest returned
timestamp) immediately yields the empty page and the remaining newer
record is never returned.  Store: rows at timestamps 1, 2, 3 for the pair
a and b; limit 2; cursor 10.  Page one is the rows at timestamps 1 and 2,
the follow-up call with cursor 1 is empty, and the row at timestamp 3 —
strictly below the original cursor — appears on neither page. -/
theorem c5_pagination_gap :
    let r : StoreModel :=
      { users := ["a", "b"],
        db := [ { id := 1, sender := "a", receiver := "b", content := "m1",
                  messageType := 0, isRead := false, messagedAt := 1 },
                { id := 2, sender := "a", receiver := "b", content := "m2",
                  messageType := 0, isRead := false, messagedAt := 2 },
                { id := 3, sender := "a", receiver := "b", content := "m3",
                  messageType := 0, isRead := false, messagedAt := 3 } ],
        nextId := 4, dbOk := true }
    let item3 : MessageHistoryItem :=
      { SenderID := "a", ReceiverID := "b", Content := "m3",
        MessageType := 0, IsRead := false, MessagedAt := 3 }
    r.GetConversationHistory "a" "b" 2 10
        = .ok [ { SenderID := "a", ReceiverID := "b", Content := "m1",
                  MessageType := 0, IsRead := false, MessagedAt := 1 },
                { SenderID := "a", ReceiverID := "b", Content := "m2",
                  MessageType := 0, IsRead := false, MessagedAt := 2 } ]
      ∧ r.GetConversationHistory "a" "b" 2 1 = .ok []
      ∧ (3 : Int) < 10
      ∧ item3 ∉ (r.GetConversationHistory "a" "b" 2 10).toOption.getD []
      ∧ item3 ∉ (r.GetConversationHistory "a" "b" 2 1).toOption.getD [] := by
  decide

/-- C3 counterexample: a message that passes validation and is persisted is
certainly processed, yet when the receiver is online with a full outbound
queue the code produces NO acknowledgement at all (it offers an error
response instead), refuting the claim that exactly one acknowledgement
with status sent, queued or error is produced per processed message.
Receiver bob is online with 32 queued payloads; the save succeeds (one row
is persisted) and the acknowledgement list is empty. -/
theorem c3_counterexample_delivery_failure_no_ack :
    let cm : ConnectionManager :=
      { clients := [("bob", 0)],
        conns := [ { UserID := "bob",
                     send := List.replicate 32 (Payload.errResp { Error := "", Code := "" }),
                     doneClosed := false, connClosed := false } ] }
    let store : StoreModel := { users := ["alice", "bob"], db := [], nextId := 1, dbOk := true }
    let msg : Message :=
      { SenderID := "alice", ReceiverID := "bob", Content := "hi", Timestamp := 5,
        ID := "m1", MessageType := 0, IsRead := false }
    let res := processMessage { repo := some store } cm "alice" msg "g1" 7
    ackStatuses res.1 = []
      ∧ res.1.countP Action.isErrToSender = 1
      ∧ (res.2.2.repo.map (fun s => s.db.length) = some 1) := by
  decide

/-- C8 counterexample: when the enqueue onto the outbound queue of the online
receiver fails, the claim says the sender receives an error
ACKNOWLEDGEMENT (a payload with the message id and status error); the code
instead offers a bare ErrorResponse carrying only an error text — no
message id, no status — and no acknowledgement of any kind is produced.
Receiver dave is online with a full queue; the evaluated trace is exactly
the save call followed by the error response. -/
theorem c8_counterexample_error_response_not_ack :
    let cm : ConnectionManager :=
      { clients := [("dave", 0)],
        conns := [ { UserID := "dave",
                     send := List.replicate 32 (Payload.errResp { Error := "", Code := "" }),
                     doneClosed := false, connClosed := false } ] }
    let store : StoreModel := { users := ["carol", "dave"], db := [], nextId := 7, dbOk := true }
    let msg : Message :=
      { SenderID := "carol", ReceiverID := "dave", Content := "yo", Timestamp := 9,
        ID := "m9", MessageType := 0, IsRead := false }
    (processMessage { repo := some store } cm "carol" msg "g9" 11).1
        = [ .save "carol" "dave" "yo" 0 9,
            .toSender (.errResp
              { Error := "failed to deliver message: user dave message queue full", Code := "" }) ]
      ∧ (processMessage { repo := some store } cm "carol" msg "g9" 11).1.countP Action.isAckToSender = 0 := by
  decide

/-- C7 counterexample: the claim says the notification pushed to each online
original sender carries the AFFECTED message ids; the code pushes the full
requested id list instead.  Reader B marks ids 1 and 99, where row 1 is a
message from A to B and row 99 belongs to the unrelated pair C and D; only
row 1 is marked (row 99 stays unread), yet the single notification pushed
to the online sender A lists both ids 1 and 99. -/
theorem c7_counterexample_notification_carries_unaffected_ids :
    let cm : ConnectionManager :=
      { clients := [("A", 0)],
        conns := [ { UserID := "A", send := [], doneClosed := false, connClosed := false } ] }
    let store : StoreModel :=
      { users := ["A", "B", "C", "D"],
        db := [ { id := 1, sender := "A", receiver := "B", content := "x",
                  messageType := 0, isRead := false, messagedAt := 1 },
                { id := 99, sender := "C", receiver := "D", content := "y",
                  messageType := 0, isRead := false, messagedAt := 2 } ],
        nextId := 100, dbOk := true }
    let res := processReadReceipt { repo := some store } cm "B" (some [some "1", some "99"])
    res.1 = [ .toUser "A" (.readReceipt
                { EventType := "message_read", MessageIDs := ["1", "99"], ReadBy := "B" }) ]
      ∧ res.2.2.repo
          = some { users := ["A", "B", "C", "D"],
                   db := [ { id := 1, sender := "A", receiver := "B", content := "x",
                             messageType := 0, isRead := true, messagedAt := 1 },
                           { id := 99, sender := "C", receiver := "D", content := "y",
                             messageType := 0, isRead := false, messagedAt := 2 } ],
                   nextId := 100, dbOk := true } := by
  decide

/-- C2: for every inbound message event with non-empty content of at most
10000 characters, a present receiver distinct from the authenticated
sender, and a configured store, processMessage performs exactly one
gateway save call, and this call is the head of the action trace, hence it
precedes every delivery enqueue. -/
theorem c2_persist_once_before_delivery
    (store : StoreModel) (cm : ConnectionManager) (clientID : String)
    (msg : Message) (genID : String) (now : Int)
    (hc : msg.Content ≠ "") (hlen : msg.Content.length ≤ 10000)
    (hr : msg.ReceiverID ≠ "") (hne : msg.ReceiverID ≠ clientID) :
    ∃ rest,
      (processMessage { repo := some store } cm clientID msg genID now).1
        = Action.save clientID msg.ReceiverID msg.Content msg.MessageType
            (if msg.Timestamp = 0 then now else msg.Timestamp) :: rest
      ∧ rest.countP Action.isSave = 0 := by
  have hv := validateMessage_eq_none msg clientID hc hlen hr hne
  simp only [processMessage, hv, normalizeMessage, messageTypeNorm]
  cases hsave : store.SaveMessage clientID msg.ReceiverID msg.Content msg.MessageType
      (if msg.Timestamp = 0 then now else msg.Timestamp) with
  | error e =>
    refine ⟨_, rfl, ?_⟩
    simp [Action.isSave]
  | ok v =>
    refine ⟨_, rfl, ?_⟩
    exact deliverPhase_no_save cm _

/-- C4: every inbound message event violating validation (empty content,
content longer than 10000 characters, missing receiver, or receiver equal
to the authenticated sender — in particular every self-addressed message)
makes processMessage offer one error response to the originating
connection and nothing else: no save call, no delivery enqueue, and both
the registry and the handler state are unchanged. -/
theorem c4_validation_failure_short_circuits
    (h : Handler) (cm : ConnectionManager) (clientID : String) (msg : Message)
    (genID : String) (now : Int)
    (hbad : msg.Content = "" ∨ msg.Content.length > 10000
        ∨ msg.ReceiverID = "" ∨ msg.ReceiverID = clientID) :
    ∃ e, processMessage h cm clientID msg genID now
      = ([.toSender (.errResp { Error := e, Code := "" })], cm, h) := by
  have hv : (validateMessage msg clientID).isSome := by
    unfold validateMessage
    by_cases h1 : msg.Content = "" <;> by_cases h2 : msg.Content.length > 10000 <;>
      by_cases h3 : msg.ReceiverID = "" <;> by_cases h4 : msg.ReceiverID = clientID <;>
      simp [h1, h2, h3, h4, apply_ite Option.isSome]
    all_goals tauto
  obtain ⟨e, he⟩ := Option.isSome_iff_exists.mp hv
  exact ⟨e, by simp [processMessage, he]⟩

/-- C9: the persisted and delivered sender identity is the identity of the
authenticated connection, independent of the client-supplied sender field:
two processMessage runs differing only in the inbound sender field produce
identical traces, registry states and handler states. -/
theorem c9_sender_identity_forced
    (h : Handler) (cm : ConnectionManager) (clientID : String) (msg : Message)
    (s1 s2 : String) (genID : String) (now : Int) :
    processMessage h cm clientID { msg with SenderID := s1 } genID now
      = processMessage h cm clientID { msg with SenderID := s2 } genID now := by
  cases msg
  simp [processMessage, validateMessage, normalizeMessage]

/-- A broadcast to a user with room in the outbound queue succeeds and leaves
the registry map unchanged. -/
theorem broadcast_ok_of_room (cm : ConnectionManager) (u : String) (p : Payload)
    (h : cm.sendRoom u = true) :
    ∃ cm2, cm.BroadcastToUser u p = .ok cm2 ∧ cm2.clients = cm.clients := by
  unfold ConnectionManager.sendRoom at h
  unfold ConnectionManager.BroadcastToUser
  cases hl : cm.clients.lookup u with
  | none => simp only [hl] at h; cases h
  | some t =>
    simp only [hl] at h ⊢
    cases hc : cm.conn? t with
    | none => simp only [hc] at h; cases h
    | some c =>
      simp only [hc] at h ⊢
      have hroom : c.send.length < sendQueueCap := by simpa using h
      refine ⟨cm.setConn t { c with send := c.send ++ [p] }, ?_, rfl⟩
      rw [if_pos hroom]

/-- A broadcast to an online user without room in the outbound queue fails. -/
theorem broadcast_err_of_noroom (cm : ConnectionManager) (u : String) (p : Payload)
    (hon : cm.IsOnline u = true) (h : cm.sendRoom u = false) :
    ∃ e, cm.BroadcastToUser u p = .error e := by
  unfold ConnectionManager.IsOnline at hon
  unfold ConnectionManager.sendRoom at h
  unfold ConnectionManager.BroadcastToUser
  cases hl : cm.clients.lookup u with
  | none => rw [hl] at hon; cases hon
  | some t =>
    simp only [hl] at h ⊢
    cases hc : cm.conn? t with
    | none =>
      refine ⟨"user " ++ u ++ " is not online", ?_⟩
      simp only [hc]
    | some c =>
      simp only [hc] at h ⊢
      have hroom : ¬(c.send.length < sendQueueCap) := by simpa using h
      by_cases hd : c.doneClosed = true
      · refine ⟨"user " ++ u ++ " disconnected", ?_⟩
        rw [if_neg hroom, if_pos hd]
      · refine ⟨"user " ++ u ++ " message queue full", ?_⟩
        rw [if_neg hroom, if_neg hd]

/-- SaveMessage succeeds exactly when the pool is healthy and both UUIDs
resolve; the new row is appended and the serial id returned. -/
theorem saveMessage_ok (r : StoreModel) (s rv c : String) (mt t : Int)
    (h1 : r.dbOk = true) (h2 : s ∈ r.users) (h3 : rv ∈ r.users) :
    r.SaveMessage s rv c mt t
      = .ok ({ r with
                db := r.db ++ [{ id := r.nextId, sender := s, receiver := rv, content := c,
                                 messageType := mt, isRead := false, messagedAt := t }],
                nextId := r.nextId + 1 }, r.nextId) := by
  unfold StoreModel.SaveMessage
  rw [h1]
  simp only [Bool.true_eq_false, if_false]
  rw [if_pos ⟨h2, h3⟩]

/-- SaveMessage fails when the pool is down or a UUID does not resolve. -/
theorem saveMessage_error (r : StoreModel) (s rv c : String) (mt t : Int)
    (h : ¬(r.dbOk = true ∧ s ∈ r.users ∧ rv ∈ r.users)) :
    ∃ e, r.SaveMessage s rv c mt t = .error e := by
  unfold StoreModel.SaveMessage
  by_cases h1 : r.dbOk = false
  · rw [if_pos h1]; exact ⟨_, rfl⟩
  · rw [if_neg h1]
    have h1t : r.dbOk = true := by
      cases hb : r.dbOk
      · exact absurd hb h1
      · rfl
    rw [if_neg (fun hm => h ⟨h1t, hm⟩)]
    exact ⟨_, rfl⟩

/-- C3 amended: the acknowledgement offered to the sender has status error
whenever the gateway save fails (regardless of receiver presence), queued
when the receiver is offline, and sent when the receiver is online and the
delivery enqueue succeeds; exactly one acknowledgement is produced in all
those cases, but when the delivery enqueue fails (online receiver whose
queue cannot accept the payload) NO acknowledgement is produced and one
error response is offered instead. -/
theorem c3_ack_status_characterization
    (store : StoreModel) (cm : ConnectionManager) (clientID : String)
    (msg : Message) (genID : String) (now : Int)
    (hc : msg.Content ≠ "") (hlen : msg.Content.length ≤ 10000)
    (hr : msg.ReceiverID ≠ "") (hne : msg.ReceiverID ≠ clientID) :
    (¬(store.dbOk = true ∧ clientID ∈ store.users ∧ msg.ReceiverID ∈ store.users) →
        ackStatuses (processMessage { repo := some store } cm clientID msg genID now).1
          = ["error"])
    ∧ (store.dbOk = true → clientID ∈ store.users → msg.ReceiverID ∈ store.users →
        (cm.IsOnline msg.ReceiverID = false →
            ackStatuses (processMessage { repo := some store } cm clientID msg genID now).1
              = ["queued"])
        ∧ (cm.IsOnline msg.ReceiverID = true → cm.sendRoom msg.ReceiverID = true →
            ackStatuses (processMessage { repo := some store } cm clientID msg genID now).1
              = ["sent"])
        ∧ (cm.IsOnline msg.ReceiverID = true → cm.sendRoom msg.ReceiverID = false →
            ackStatuses (processMessage { repo := some store } cm clientID msg genID now).1 = []
            ∧ (processMessage { repo := some store } cm clientID msg genID now).1.countP
                Action.isErrToSender = 1)) := by
  have hv := validateMessage_eq_none msg clientID hc hlen hr hne
  constructor
  · intro hbad
    obtain ⟨e, he⟩ := saveMessage_error store clientID msg.ReceiverID msg.Content msg.MessageType
      (if msg.Timestamp = 0 then now else msg.Timestamp) hbad
    simp only [processMessage, hv, normalizeMessage, messageTypeNorm] at he ⊢
    simp [he, ackStatuses]
  · intro h1 h2 h3
    have hsave := saveMessage_ok store clientID msg.ReceiverID msg.Content msg.MessageType
      (if msg.Timestamp = 0 then now else msg.Timestamp) h1 h2 h3
    refine ⟨?_, ?_, ?_⟩
    · intro hoff
      simp only [processMessage, hv, normalizeMessage, messageTypeNorm]
      simp [hsave, deliverPhase, hoff, ackStatuses]
    · intro hon hroom
      obtain ⟨cm2, hb, hcl⟩ :=
        broadcast_ok_of_room cm msg.ReceiverID (.message (normalizeMessage msg clientID genID now)) hroom
      have hon2 : cm2.IsOnline msg.ReceiverID = true := by
        unfold ConnectionManager.IsOnline at hon ⊢
        rw [hcl]; exact hon
      simp only [processMessage, hv, normalizeMessage, messageTypeNorm] at hb ⊢
      simp [hsave, deliverPhase, hon, hb, hon2, ackStatuses]
    · intro hon hfull
      obtain ⟨e, hb⟩ :=
        broadcast_err_of_noroom cm msg.ReceiverID (.message (normalizeMessage msg clientID genID now)) hon hfull
      simp only [processMessage, hv, normalizeMessage, messageTypeNorm] at hb ⊢
      constructor
      · simp [hsave, deliverPhase, hon, hb, ackStatuses]
      · simp [hsave, deliverPhase, hon, hb, Action.isErrToSender, Action.isSave]

/-- C8 amended: when the receiver is online but the enqueue onto its
outbound queue fails, the sender is offered an error response (a bare
error text, not an acknowledgement with message id and status), and the
message remains persisted: the handler ends up holding the store with the
saved row appended. -/
theorem c8_delivery_failure_error_response_message_persisted
    (store : StoreModel) (cm : ConnectionManager) (clientID : String)
    (msg : Message) (genID : String) (now : Int)
    (hc : msg.Content ≠ "") (hlen : msg.Content.length ≤ 10000)
    (hr : msg.ReceiverID ≠ "") (hne : msg.ReceiverID ≠ clientID)
    (hdb : store.dbOk = true) (hsu : clientID ∈ store.users) (hru : msg.ReceiverID ∈ store.users)
    (hon : cm.IsOnline msg.ReceiverID = true) (hfull : cm.sendRoom msg.ReceiverID = false) :
    ∃ e, processMessage { repo := some store } cm clientID msg genID now
      = ([ Action.save clientID msg.ReceiverID msg.Content msg.MessageType
             (if msg.Timestamp = 0 then now else msg.Timestamp),
           Action.toSender (.errResp
             { Error := "failed to deliver message: " ++ e, Code := "" }) ],
         cm,
         { repo := some { store with
             db := store.db ++ [{ id := store.nextId, sender := clientID,
                                  receiver := msg.ReceiverID, content := msg.Content,
                                  messageType := msg.MessageType, isRead := false,
                                  messagedAt := if msg.Timestamp = 0 then now else msg.Timestamp }],
             nextId := store.nextId + 1 } }) := by
  have hv := validateMessage_eq_none msg clientID hc hlen hr hne
  have hsave := saveMessage_ok store clientID msg.ReceiverID msg.Content msg.MessageType
    (if msg.Timestamp = 0 then now else msg.Timestamp) hdb hsu hru
  obtain ⟨e, hb⟩ :=
    broadcast_err_of_noroom cm msg.ReceiverID (.message (normalizeMessage msg clientID genID now)) hon hfull
  refine ⟨e, ?_⟩
  simp only [processMessage, hv, normalizeMessage, messageTypeNorm] at hb ⊢
  simp [hsave, deliverPhase, hon, hb]

/-- Witness for C3 at a concrete input: online receiver with room yields the
single acknowledgement with status sent. -/
theorem c3_witness :
    (("hi" : String) ≠ "" ∧ ("hi" : String).length ≤ 10000
        ∧ ("bob" : String) ≠ "" ∧ ("bob" : String) ≠ "alice")
    ∧ ackStatuses (processMessage
        { repo := some { users := ["alice", "bob"], db := [], nextId := 1, dbOk := true } }
        { clients := [("bob", 0)],
          conns := [ { UserID := "bob", send := [], doneClosed := false, connClosed := false } ] }
        "alice"
        { SenderID := "alice", ReceiverID := "bob", Content := "hi", Timestamp := 5,
          ID := "m1", MessageType := 0, IsRead := false } "g1" 7).1 = ["sent"] :=
  ⟨⟨by decide, by decide, by decide, by decide⟩,
    ((c3_ack_status_characterization _ _ _ _ _ _
        (by decide) (by decide) (by decide) (by decide)).2
      (by decide) (by decide) (by decide)).2.1 (by decide) (by decide)⟩

/-- Witness for C8 at a concrete input: online receiver with a full queue. -/
theorem c8_witness :
    (("yo" : String) ≠ "" ∧ ("yo" : String).length ≤ 10000
        ∧ ("bob" : String) ≠ "" ∧ ("bob" : String) ≠ "alice")
    ∧ ∃ e, processMessage
        { repo := some { users := ["alice", "bob"], db := [], nextId := 3, dbOk := true } }
        { clients := [("bob", 0)],
          conns := [ { UserID := "bob",
                       send := List.replicate 32 (Payload.errResp { Error := "", Code := "" }),
                       doneClosed := false, connClosed := false } ] }
        "alice"
        { SenderID := "alice", ReceiverID := "bob", Content := "yo", Timestamp := 4,
          ID := "m4", MessageType := 0, IsRead := false } "g4" 8
      = ([ Action.save "alice" "bob" "yo" 0 (if (4 : Int) = 0 then 8 else 4),
           Action.toSender (.errResp
             { Error := "failed to deliver message: " ++ e, Code := "" }) ],
         { clients := [("bob", 0)],
           conns := [ { UserID := "bob",
                        send := List.replicate 32 (Payload.errResp { Error := "", Code := "" }),
                        doneClosed := false, connClosed := false } ] },
         { repo := some
             { users := ["alice", "bob"],
               db := [{ id := 3, sender := "alice", receiver := "bob", content := "yo",
                        messageType := 0, isRead := false,
                        messagedAt := if (4 : Int) = 0 then 8 else 4 }],
               nextId := 4, dbOk := true } }) :=
  ⟨⟨by decide, by decide, by decide, by decide⟩, by
    have h := c8_delivery_failure_error_response_message_persisted
      { users := ["alice", "bob"], db := [], nextId := 3, dbOk := true }
      { clients := [("bob", 0)],
        conns := [ { UserID := "bob",
                     send := List.replicate 32 (Payload.errResp { Error := "", Code := "" }),
                     doneClosed := false, connClosed := false } ] }
      "alice"
      { SenderID := "alice", ReceiverID := "bob", Content := "yo", Timestamp := 4,
        ID := "m4", MessageType := 0, IsRead := false } "g4" 8
      (by decide) (by decide) (by decide) (by decide)
      (by decide) (by decide) (by decide) (by decide) (by decide)
    simpa using h⟩

/-- Elements produced by the first-seen deduplication come from the input. -/
theorem mem_dedupFirst {x : String} : ∀ (l seen : List String),
    x ∈ StoreModel.dedupFirst seen l → x ∈ l := by
  intro l
  induction l with
  | nil => intro seen h; cases h
  | cons a tl ih =>
    intro seen h
    unfold StoreModel.dedupFirst at h
    by_cases ha : a ∈ seen
    · rw [if_pos ha] at h
      exact List.mem_cons_of_mem a (ih _ h)
    · rw [if_neg ha] at h
      rcases List.mem_cons.mp h with h1 | h2
      · rw [h1]; exact List.mem_cons_self a tl
      · exact List.mem_cons_of_mem a (ih _ h2)

/-- The first-seen deduplication yields a duplicate-free list disjoint from
the seen accumulator. -/
theorem dedupFirst_spec : ∀ (l seen : List String),
    (StoreModel.dedupFirst seen l).Nodup
      ∧ ∀ y ∈ StoreModel.dedupFirst seen l, y ∉ seen := by
  intro l
  induction l with
  | nil => exact fun seen => ⟨List.nodup_nil, by intro y h; cases h⟩
  | cons a tl ih =>
    intro seen
    unfold StoreModel.dedupFirst
    by_cases ha : a ∈ seen
    · rw [if_pos ha]; exact ih seen
    · rw [if_neg ha]
      obtain ⟨nd, hni⟩ := ih (a :: seen)
      refine ⟨List.nodup_cons.mpr ⟨?_, nd⟩, ?_⟩
      · intro hmem
        exact hni a hmem (List.mem_cons_self a seen)
      · intro y hy
        rcases List.mem_cons.mp hy with h1 | h2
        · rw [h1]; exact ha
        · intro hysn
          exact hni y h2 (List.mem_cons_of_mem a hysn)

/-- Evaluation of MarkMessagesAsRead on a healthy pool: no parseable id or an
unresolvable receiver leaves the store untouched with no senders, and
otherwise the matching rows are marked and the deduplicated senders of the
previously unread matching rows are returned. -/
theorem markMessagesAsRead_eq (r : StoreModel) (receiverUUID : String)
    (messageIDs : List String) (hdb : r.dbOk = true) :
    r.MarkMessagesAsRead receiverUUID messageIDs
      = (if (messageIDs.filterMap StoreModel.parseMessageID).isEmpty = true
            ∨ receiverUUID ∉ r.users then .ok (r, [])
         else .ok ({ r with db := r.db.map (fun m =>
                  if StoreModel.markHit receiverUUID
                      (messageIDs.filterMap StoreModel.parseMessageID) m
                  then { m with isRead := true } else m) },
              StoreModel.dedupFirst []
                ((r.db.filter (fun m =>
                    decide (StoreModel.markHit receiverUUID
                      (messageIDs.filterMap StoreModel.parseMessageID) m))).map
                  (fun m => m.sender)))) := by
  simp only [StoreModel.MarkMessagesAsRead]
  by_cases hE : messageIDs.isEmpty
  · rw [if_pos hE]
    rw [List.isEmpty_iff] at hE
    subst hE
    rfl
  · rw [if_neg hE]
    by_cases hI : (messageIDs.filterMap StoreModel.parseMessageID).isEmpty
    · rw [if_pos hI, if_pos (Or.inl hI)]
    · rw [if_neg hI]
      rw [hdb]
      simp only [Bool.true_eq_false, if_false]
      by_cases hU : receiverUUID ∈ r.users
      · have hcond : ¬((messageIDs.filterMap StoreModel.parseMessageID).isEmpty = true
            ∨ receiverUUID ∉ r.users) := by
          rintro (hh | hh)
          · exact hI hh
          · exact hh hU
        rw [if_pos hU, if_neg hcond]
      · rw [if_neg hU, if_pos (Or.inr hU)]

/-- C6: MarkMessagesAsRead marks only rows whose actual receiver is the given
identity (every row with a different receiver is untouched, position by
position), returns a duplicate-free list of sender identities each backed
by a previously unread row of that receiver among the named ids, and when
the identity is the true receiver of none of the named ids it returns an
empty sender list and leaves the store unchanged. -/
theorem c6_mark_as_read_authorization
    (r : StoreModel) (receiverUUID : String) (messageIDs : List String)
    (hdb : r.dbOk = true) :
    (∀ r2 senders, r.MarkMessagesAsRead receiverUUID messageIDs = .ok (r2, senders) →
        (∀ (i : Nat) (m : DBMessage), r.db[i]? = some m → m.receiver ≠ receiverUUID →
            r2.db[i]? = some m)
        ∧ senders.Nodup
        ∧ (∀ s ∈ senders, ∃ m, m ∈ r.db ∧ m.receiver = receiverUUID ∧ m.sender = s
            ∧ m.isRead = false ∧ m.id ∈ messageIDs.filterMap StoreModel.parseMessageID))
    ∧ ((∀ m, m ∈ r.db → m.id ∈ messageIDs.filterMap StoreModel.parseMessageID →
          m.receiver ≠ receiverUUID) →
        r.MarkMessagesAsRead receiverUUID messageIDs = .ok (r, [])) := by
  rw [markMessagesAsRead_eq r receiverUUID messageIDs hdb]
  constructor
  · intro r2 senders h
    split at h
    · injection h with h
      injection h with h1 h2
      subst h1; subst h2
      refine ⟨?_, List.nodup_nil, ?_⟩
      · intro i m hm hne
        exact hm
      · intro s hs; cases hs
    · injection h with h
      injection h with h1 h2
      subst h1; subst h2
      refine ⟨?_, (dedupFirst_spec _ []).1, ?_⟩
      · intro i m hm hne
        have hnot : ¬ StoreModel.markHit receiverUUID
            (messageIDs.filterMap StoreModel.parseMessageID) m := fun hh => hne hh.1
        show (r.db.map _)[i]? = some m
        simp [List.getElem?_map, hm, hnot]
      · intro s hs
        have hs2 := mem_dedupFirst _ _ hs
        obtain ⟨m, hmem, hsender⟩ := List.mem_map.mp hs2
        obtain ⟨hmdb, hhit⟩ := List.mem_filter.mp hmem
        have hhit2 := of_decide_eq_true hhit
        exact ⟨m, hmdb, hhit2.1, hsender, hhit2.2.2, hhit2.2.1⟩
  · intro hno
    by_cases hc : (messageIDs.filterMap StoreModel.parseMessageID).isEmpty = true
        ∨ receiverUUID ∉ r.users
    · rw [if_pos hc]
    · rw [if_neg hc]
      have hfil : r.db.filter (fun m =>
          decide (StoreModel.markHit receiverUUID
            (messageIDs.filterMap StoreModel.parseMessageID) m)) = [] := by
        rw [List.filter_eq_nil_iff]
        intro m hm hdec
        have hh := of_decide_eq_true hdec
        exact hno m hm hh.2.1 hh.1
      have hmap : r.db.map (fun m =>
          if StoreModel.markHit receiverUUID
              (messageIDs.filterMap StoreModel.parseMessageID) m
          then { m with isRead := true } else m) = r.db := by
        have hcong : ∀ m ∈ r.db,
            (if StoreModel.markHit receiverUUID
                (messageIDs.filterMap StoreModel.parseMessageID) m
             then { m with isRead := true } else m) = id m := by
          intro m hm
          rw [if_neg]
          · rfl
          · intro hh
            exact hno m hm hh.2.1 hh.1
        rw [List.map_congr_left hcong, List.map_id]
      rw [hfil, hmap]
      rfl

/-- Witness for C6 at a concrete input: identity Z is the receiver of none of
the named ids, so nothing is marked and no senders are returned. -/
theorem c6_witness :
    ({ users := ["A", "B", "Z"],
       db := [{ id := 1, sender := "A", receiver := "B", content := "x",
                messageType := 0, isRead := false, messagedAt := 1 }],
       nextId := 2, dbOk := true } : StoreModel).dbOk = true
    ∧ ({ users := ["A", "B", "Z"],
         db := [{ id := 1, sender := "A", receiver := "B", content := "x",
                  messageType := 0, isRead := false, messagedAt := 1 }],
         nextId := 2, dbOk := true } : StoreModel).MarkMessagesAsRead "Z" ["1"]
      = .ok ({ users := ["A", "B", "Z"],
               db := [{ id := 1, sender := "A", receiver := "B", content := "x",
                        messageType := 0, isRead := false, messagedAt := 1 }],
               nextId := 2, dbOk := true }, []) :=
  ⟨rfl, (c6_mark_as_read_authorization _ "Z" ["1"] rfl).2 (by decide)⟩

/-- A successful registry lookup exhibits a map entry. -/
theorem lookup_mem : ∀ {l : List (String × Nat)} {k : String} {t : Nat},
    l.lookup k = some t → (k, t) ∈ l := by
  intro l
  induction l with
  | nil => intro k t h; cases h
  | cons a tl ih =>
    intro k t h
    rw [List.lookup] at h
    split at h
    · rename_i heq
      injection h with h
      subst h
      have hk : k = a.1 := eq_of_beq heq
      have hpair : (k, a.2) = a := by rw [hk]
      rw [hpair]
      exact List.mem_cons_self a tl
    · exact List.mem_cons_of_mem a (ih h)

/-- Presence only reads the registry map. -/
theorem isOnline_congr {cm cm2 : ConnectionManager} (hcl : cm2.clients = cm.clients)
    (x : String) : cm2.IsOnline x = cm.IsOnline x := by
  unfold ConnectionManager.IsOnline
  rw [hcl]

/-- Token injectivity only reads the registry map. -/
theorem tokensInjective_congr {cm cm2 : ConnectionManager}
    (hcl : cm2.clients = cm.clients) (h : cm.tokensInjective) : cm2.tokensInjective := by
  intro a b ha hb hab
  rw [hcl] at ha hb
  exact h a b ha hb hab

/-- Overwriting one heap cell leaves the other cells unchanged. -/
theorem conn?_setConn_ne (cm : ConnectionManager) (t t2 : Nat) (c : Client)
    (h : t ≠ t2) : (cm.setConn t c).conn? t2 = cm.conn? t2 := by
  unfold ConnectionManager.conn? ConnectionManager.setConn
  rw [List.get?_eq_getElem?, List.get?_eq_getElem?]
  exact List.getElem?_set_ne h

/-- Queue room is determined by the registry map and the heap cell of the
looked-up token. -/
theorem sendRoom_congr (cm cm2 : ConnectionManager) (x : String)
    (hcl : cm2.clients = cm.clients)
    (hcn : ∀ t, cm2.clients.lookup x = some t → cm2.conn? t = cm.conn? t) :
    cm2.sendRoom x = cm.sendRoom x := by
  unfold ConnectionManager.sendRoom
  rw [hcl]
  cases hlx : cm.clients.lookup x with
  | none => rfl
  | some t2 =>
    simp only [hlx]
    rw [hcn t2 (by rw [hcl, hlx])]

/-- A successful broadcast is exactly an enqueue onto the heap cell of the
looked-up token. -/
theorem broadcast_ok_elim (cm : ConnectionManager) (u : String) (p : Payload)
    (cm2 : ConnectionManager) (hb : cm.BroadcastToUser u p = .ok cm2) :
    ∃ t c, cm.clients.lookup u = some t ∧ cm.conn? t = some c
      ∧ cm2 = cm.setConn t { c with send := c.send ++ [p] } := by
  unfold ConnectionManager.BroadcastToUser at hb
  cases hl : cm.clients.lookup u with
  | none => rw [hl] at hb; cases hb
  | some t =>
    simp only [hl] at hb
    cases hc : cm.conn? t with
    | none => simp only [hc] at hb; cases hb
    | some c =>
      simp only [hc] at hb
      by_cases hroom : c.send.length < sendQueueCap
      · rw [if_pos hroom] at hb
        injection hb with hb
        exact ⟨t, c, rfl, hc, hb.symm⟩
      · rw [if_neg hroom] at hb
        split at hb
        · cases hb
        · cases hb

/-- A successful broadcast to one user preserves the registry map and the
queue room of every other user, given token injectivity. -/
theorem broadcast_preserves_other (cm : ConnectionManager) (s x : String) (p : Payload)
    (hinj : cm.tokensInjective) (hxs : x ≠ s) (cm2 : ConnectionManager)
    (hb : cm.BroadcastToUser s p = .ok cm2) :
    cm2.clients = cm.clients ∧ cm2.sendRoom x = cm.sendRoom x := by
  obtain ⟨t, c, hl, hc, rfl⟩ := broadcast_ok_elim cm s p cm2 hb
  refine ⟨rfl, ?_⟩
  refine sendRoom_congr cm _ x rfl ?_
  intro t2 hlx
  have ht2 : t ≠ t2 := by
    intro he
    subst he
    exact hxs (hinj (x, t) (s, t) (lookup_mem hlx) (lookup_mem hl) rfl)
  exact conn?_setConn_ne cm t t2 _ ht2

/-- Trace of the read-receipt notification loop: one enqueue per listed
sender that is online, in order, provided the senders are distinct and
every online listed sender has queue room. -/
theorem notifySenders_trace (notif : Payload) :
    ∀ (senders : List String) (cm : ConnectionManager),
    senders.Nodup → cm.tokensInjective →
    (∀ s ∈ senders, cm.IsOnline s = true → cm.sendRoom s = true) →
    (notifySenders cm senders notif).1
      = (senders.filter (fun s => cm.IsOnline s)).map (fun s => Action.toUser s notif) := by
  intro senders
  induction senders with
  | nil => intro cm _ _ _; rfl
  | cons s rest ih =>
    intro cm hnd hinj hroom
    obtain ⟨hs_notin, hnd2⟩ := List.nodup_cons.mp hnd
    unfold notifySenders
    by_cases hon : cm.IsOnline s = true
    · rw [if_pos hon]
      have hroomS := hroom s (List.mem_cons_self s rest) hon
      obtain ⟨cm2, hb, hcl⟩ := broadcast_ok_of_room cm s notif hroomS
      rw [hb]
      have hinj2 : cm2.tokensInjective := tokensInjective_congr hcl hinj
      have hroom2 : ∀ s2 ∈ rest, cm2.IsOnline s2 = true → cm2.sendRoom s2 = true := by
        intro s2 hs2 hon2
        have hne2 : s2 ≠ s := fun he => hs_notin (he ▸ hs2)
        obtain ⟨hcl2, hsr⟩ := broadcast_preserves_other cm s s2 notif hinj hne2 cm2 hb
        rw [hsr]
        rw [isOnline_congr hcl2 s2] at hon2
        exact hroom s2 (List.mem_cons_of_mem s hs2) hon2
      have hres := ih cm2 hnd2 hinj2 hroom2
      cases hrec : notifySenders cm2 rest notif with
      | mk acts cm3 =>
        rw [hrec] at hres
        have hfil : rest.filter (fun s2 => cm2.IsOnline s2)
            = rest.filter (fun s2 => cm.IsOnline s2) :=
          List.filter_congr (fun s2 _ => isOnline_congr hcl s2)
        rw [hfil] at hres
        have hres2 : acts = (rest.filter (fun s2 => cm.IsOnline s2)).map
            (fun s2 => Action.toUser s2 notif) := hres
        simp only [hrec]
        rw [List.filter_cons_of_pos hon, List.map_cons, hres2]
    · rw [if_neg hon]
      rw [List.filter_cons_of_neg hon]
      exact ih cm hnd2 hinj (fun s2 hs2 => hroom s2 (List.mem_cons_of_mem s hs2))

/-- Counting the enqueues addressed to one user over a notification trace of
distinct targets. -/
theorem countP_toUser_of_nodup (notif : Payload) (x : String) :
    ∀ (l : List String), l.Nodup →
    ((l.map (fun s => Action.toUser s notif)).countP (Action.isToUser x))
      = if x ∈ l then 1 else 0 := by
  intro l
  induction l with
  | nil => intro _; rfl
  | cons a tl ih =>
    intro hnd
    obtain ⟨hnotin, hnd2⟩ := List.nodup_cons.mp hnd
    simp only [List.map_cons, List.countP_cons]
    rw [ih hnd2]
    by_cases hax : a = x
    · subst hax
      rw [if_neg hnotin, if_pos (List.mem_cons_self a tl)]
      simp [Action.isToUser]
    · have hiff : x ∈ a :: tl ↔ x ∈ tl := by
        constructor
        · intro h
          rcases List.mem_cons.mp h with h1 | h2
          · exact absurd h1.symm hax
          · exact h2
        · exact List.mem_cons_of_mem a
      rw [if_congr hiff rfl rfl]
      simp [Action.isToUser, hax]

/-- The sender list returned by MarkMessagesAsRead is duplicate-free. -/
theorem markMessagesAsRead_senders_nodup (r : StoreModel) (receiverUUID : String)
    (messageIDs : List String) (r2 : StoreModel) (senders : List String)
    (hdb : r.dbOk = true)
    (h : r.MarkMessagesAsRead receiverUUID messageIDs = .ok (r2, senders)) :
    senders.Nodup := by
  rw [markMessagesAsRead_eq r receiverUUID messageIDs hdb] at h
  split at h
  · injection h with h
    injection h with h1 h2
    subst h2
    exact List.nodup_nil
  · injection h with h
    injection h with h1 h2
    subst h2
    exact (dedupFirst_spec _ []).1

/-- C7 amended: each distinct sender returned by the mark-as-read gateway
call that is currently online is pushed exactly one read-receipt
notification, offline senders are pushed none, and the notification
carries the reader identity together with the FULL requested id list (not
only the affected ids — see the counterexample).  The queue-room premise
reflects that a full outbound queue only logs the failed push. -/
theorem c7_read_receipt_fanout
    (store : StoreModel) (cm : ConnectionManager) (clientID : String)
    (raws : List (Option String)) (store2 : StoreModel) (senders : List String)
    (hinj : cm.tokensInjective)
    (hne : (raws.filterMap id).isEmpty = false)
    (hmark : store.MarkMessagesAsRead clientID (raws.filterMap id) = .ok (store2, senders))
    (hnd : senders.Nodup)
    (hroom : ∀ s ∈ senders, cm.IsOnline s = true → cm.sendRoom s = true) :
    (processReadReceipt { repo := some store } cm clientID (some raws)).1
      = (senders.filter (fun s => cm.IsOnline s)).map (fun s => Action.toUser s
          (Payload.readReceipt
            { EventType := "message_read", MessageIDs := raws.filterMap id,
              ReadBy := clientID }))
    ∧ ∀ x : String,
        ((processReadReceipt { repo := some store } cm clientID (some raws)).1.countP
            (Action.isToUser x))
          = if x ∈ senders ∧ cm.IsOnline x = true then 1 else 0 := by
  have hrawsne : raws.isEmpty = false := by
    cases raws
    · cases hne
    · rfl
  have htrace : (processReadReceipt { repo := some store } cm clientID (some raws)).1
      = (senders.filter (fun s => cm.IsOnline s)).map (fun s => Action.toUser s
          (Payload.readReceipt
            { EventType := "message_read", MessageIDs := raws.filterMap id,
              ReadBy := clientID })) := by
    simp only [processReadReceipt, hrawsne, hne, hmark, Bool.false_eq_true, if_false]
    cases hrec : notifySenders cm senders (Payload.readReceipt
        { EventType := "message_read", MessageIDs := raws.filterMap id, ReadBy := clientID }) with
    | mk acts cm3 =>
      have hres := notifySenders_trace (Payload.readReceipt
          { EventType := "message_read", MessageIDs := raws.filterMap id,
            ReadBy := clientID }) senders cm hnd hinj hroom
      rw [hrec] at hres
      simp only [hrec]
      exact hres
  refine ⟨htrace, ?_⟩
  intro x
  rw [htrace]
  rw [countP_toUser_of_nodup _ x _ (List.Nodup.filter _ hnd)]
  refine if_congr ?_ rfl rfl
  constructor
  · intro h
    obtain ⟨h1, h2⟩ := List.mem_filter.mp h
    exact ⟨h1, h2⟩
  · intro h
    exact List.mem_filter.mpr ⟨h.1, h.2⟩

/-- Witness for C7 at the end-to-end scenario of the claim: A sent two
messages to B, B marks both ids as read, and the online sender A receives
exactly one notification listing both ids with the reader identity B. -/
theorem c7_witness :
    (({ users := ["A", "B"],
        db := [{ id := 1, sender := "A", receiver := "B", content := "x",
                 messageType := 0, isRead := false, messagedAt := 1 },
               { id := 2, sender := "A", receiver := "B", content := "y",
                 messageType := 0, isRead := false, messagedAt := 2 }],
        nextId := 3, dbOk := true } : StoreModel).MarkMessagesAsRead "B"
        (([some "1", some "2"] : List (Option String)).filterMap id)
      = .ok ({ users := ["A", "B"],
               db := [{ id := 1, sender := "A", receiver := "B", content := "x",
                        messageType := 0, isRead := true, messagedAt := 1 },
                      { id := 2, sender := "A", receiver := "B", content := "y",
                        messageType := 0, isRead := true, messagedAt := 2 }],
               nextId := 3, dbOk := true }, ["A"]))
    ∧ (processReadReceipt
        { repo := some
            { users := ["A", "B"],
              db := [{ id := 1, sender := "A", receiver := "B", content := "x",
                       messageType := 0, isRead := false, messagedAt := 1 },
                     { id := 2, sender := "A", receiver := "B", content := "y",
                       messageType := 0, isRead := false, messagedAt := 2 }],
              nextId := 3, dbOk := true } }
        { clients := [("A", 0)],
          conns := [{ UserID := "A", send := [], doneClosed := false, connClosed := false }] }
        "B" (some [some "1", some "2"])).1.countP (Action.isToUser "A") = 1 := by
  constructor
  · decide
  · have h := c7_read_receipt_fanout
      { users := ["A", "B"],
        db := [{ id := 1, sender := "A", receiver := "B", content := "x",
                 messageType := 0, isRead := false, messagedAt := 1 },
               { id := 2, sender := "A", receiver := "B", content := "y",
                 messageType := 0, isRead := false, messagedAt := 2 }],
        nextId := 3, dbOk := true }
      { clients := [("A", 0)],
        conns := [{ UserID := "A", send := [], doneClosed := false, connClosed := false }] }
      "B" [some "1", some "2"]
      { users := ["A", "B"],
        db := [{ id := 1, sender := "A", receiver := "B", content := "x",
                 messageType := 0, isRead := true, messagedAt := 1 },
               { id := 2, sender := "A", receiver := "B", content := "y",
                 messageType := 0, isRead := true, messagedAt := 2 }],
        nextId := 3, dbOk := true } ["A"]
      (by
        intro a b ha hb hab
        rw [List.mem_singleton] at ha hb
        rw [ha, hb])
      rfl (by decide) (by decide) (by decide)
    have h2 := h.2 "A"
    rw [h2]
    decide

/-- C10: with no message store configured, processMessage performs no gateway
save call yet still attempts delivery and still offers the sender a sent
or queued acknowledgement (sent exactly when the receiver is online, and
one enqueue to the receiver happens in that case), and processReadReceipt
returns immediately: no error response, no notification, states unchanged.
The feasibility premise excludes the delivery-enqueue failure path, which
yields an error response instead (see the C3 and C8 records). -/
theorem c10_nil_repo_behavior
    (cm : ConnectionManager) (clientID : String) (msg : Message) (genID : String) (now : Int)
    (hc : msg.Content ≠ "") (hlen : msg.Content.length ≤ 10000)
    (hr : msg.ReceiverID ≠ "") (hnself : msg.ReceiverID ≠ clientID)
    (hfeas : cm.IsOnline msg.ReceiverID = false ∨ cm.sendRoom msg.ReceiverID = true) :
    (processMessage { repo := none } cm clientID msg genID now).1.countP Action.isSave = 0
    ∧ ackStatuses (processMessage { repo := none } cm clientID msg genID now).1
        = [if cm.IsOnline msg.ReceiverID = true then "sent" else "queued"]
    ∧ (cm.IsOnline msg.ReceiverID = true →
        (processMessage { repo := none } cm clientID msg genID now).1.countP
          (Action.isToUser msg.ReceiverID) = 1)
    ∧ ∀ field, processReadReceipt { repo := none } cm clientID field
        = ([], cm, { repo := none }) := by
  have hv := validateMessage_eq_none msg clientID hc hlen hr hnself
  by_cases hon : cm.IsOnline msg.ReceiverID = true
  · have hroom : cm.sendRoom msg.ReceiverID = true := by
      rcases hfeas with h | h
      · rw [hon] at h; cases h
      · exact h
    obtain ⟨cm2, hb, hcl⟩ :=
      broadcast_ok_of_room cm msg.ReceiverID (.message (normalizeMessage msg clientID genID now)) hroom
    simp only [processMessage, hv, normalizeMessage] at hb ⊢
    refine ⟨?_, ?_, ?_, ?_⟩
    · simp [deliverPhase, hon, hb, Action.isSave]
    · have hon2 : cm2.IsOnline msg.ReceiverID = true := by
        unfold ConnectionManager.IsOnline at hon ⊢
        rw [hcl]; exact hon
      simp [deliverPhase, hon, hb, hon2, ackStatuses]
    · intro _
      simp [deliverPhase, hon, hb, Action.isToUser]
    · intro field
      rfl
  · refine ⟨?_, ?_, ?_, ?_⟩
    · simp only [processMessage, hv, normalizeMessage]
      simp [deliverPhase, hon, Action.isSave]
    · simp only [processMessage, hv, normalizeMessage]
      simp [deliverPhase, hon, ackStatuses]
    · intro h2
      exact absurd h2 hon
    · intro field
      rfl

/-- Witness for C10 at a concrete input: no store, receiver offline. -/
theorem c10_witness :
    (("hey" : String) ≠ "" ∧ ("hey" : String).length ≤ 10000
        ∧ ("bob" : String) ≠ "" ∧ ("bob" : String) ≠ "alice"
        ∧ (({ clients := [], conns := [] } : ConnectionManager).IsOnline "bob" = false
            ∨ ({ clients := [], conns := [] } : ConnectionManager).sendRoom "bob" = true))
    ∧ (processMessage { repo := none } { clients := [], conns := [] } "alice"
          { SenderID := "alice", ReceiverID := "bob", Content := "hey", Timestamp := 2,
            ID := "m2", MessageType := 0, IsRead := false } "g2" 6).1.countP Action.isSave = 0
    ∧ ackStatuses (processMessage { repo := none } { clients := [], conns := [] } "alice"
          { SenderID := "alice", ReceiverID := "bob", Content := "hey", Timestamp := 2,
            ID := "m2", MessageType := 0, IsRead := false } "g2" 6).1
        = [if ({ clients := [], conns := [] } : ConnectionManager).IsOnline "bob" = true
            then "sent" else "queued"] := by
  have h := c10_nil_repo_behavior { clients := [], conns := [] } "alice"
    { SenderID := "alice", ReceiverID := "bob", Content := "hey", Timestamp := 2,
      ID := "m2", MessageType := 0, IsRead := false } "g2" 6
    (by decide) (by decide) (by decide) (by decide) (Or.inl (by decide))
  exact ⟨⟨by decide, by decide, by decide, by decide, Or.inl (by decide)⟩, h.1, h.2.1⟩

/-- Witness for C2 at a concrete input. -/
theorem c2_witness :
    (("hi" : String) ≠ "" ∧ ("hi" : String).length ≤ 10000
        ∧ ("bob" : String) ≠ "" ∧ ("bob" : String) ≠ "alice")
    ∧ ∃ rest,
        (processMessage
            { repo := some { users := ["alice", "bob"], db := [], nextId := 1, dbOk := true } }
            { clients := [], conns := [] } "alice"
            { SenderID := "x", ReceiverID := "bob", Content := "hi", Timestamp := 5,
              ID := "m1", MessageType := 0, IsRead := false } "g1" 7).1
          = Action.save "alice" "bob" "hi" 0 (if (5 : Int) = 0 then 7 else 5) :: rest
        ∧ rest.countP Action.isSave = 0 :=
  ⟨⟨by decide, by decide, by decide, by decide⟩,
    c2_persist_once_before_delivery _ _ _ _ _ _ (by decide) (by decide) (by decide) (by decide)⟩

/-- Witness for C4 at a concrete self-addressed message. -/
theorem c4_witness :
    (("self" : String) = "" ∨ ("self" : String).length > 10000
        ∨ ("u1" : String) = "" ∨ ("u1" : String) = "u1")
    ∧ ∃ e, processMessage { repo := none } { clients := [], conns := [] } "u1"
        { SenderID := "u1", ReceiverID := "u1", Content := "self", Timestamp := 0,
          ID := "", MessageType := 0, IsRead := false } "g" 3
      = ([.toSender (.errResp { Error := e, Code := "" })],
         { clients := [], conns := [] }, { repo := none }) :=
  ⟨Or.inr (Or.inr (Or.inr rfl)),
    c4_validation_failure_short_circuits _ _ _ _ _ _ (Or.inr (Or.inr (Or.inr rfl)))⟩

end Grveyard
